import Mathlib

/-!
Shallow embedding of src/common/io/tls/server.c (TLS server driver).

The driver owns a reusable TLS context built from a certificate/key pair and,
on each accept call, wraps an already-accepted plain session into a TLS
session.  External collaborators (the OpenSSL calls, the mem-context arena,
the stat counters, the TLS session constructor) live outside src/ and are
modelled here: the success or failure of each external crypto call is an
input (`CryptoEnv`), and the observable actions of a run are recorded as an
event trace (`Ev`).
-/

namespace PgBackRest

/-- Outcome of each external crypto-library call made by the driver, plus the
crypto library's pending error text (what `ERR_get_error` would report).
`methodAvailable` is `SSLv23_method() != NULL`; `ctxAllocOk` is
`SSL_CTX_new != NULL`; `certLoadOk` / `keyLoadOk` are
`SSL_CTX_use_certificate_file > 0` / `SSL_CTX_use_PrivateKey_file > 0`;
`sslNewOk` is `SSL_new != NULL`. -/
structure CryptoEnv where
  methodAvailable : Bool
  ctxAllocOk : Bool
  certLoadOk : Bool
  keyLoadOk : Bool
  sslNewOk : Bool
  cryptoErrText : String
  deriving Repr, DecidableEq

/-- Modelled from the spec: the typed errors raised by the crypto
error-translation helper `cryptoError` (common/crypto, missing from src/).
Each carries the call-site message and the underlying crypto error text. -/
inductive TlsError where
  | cryptoInitError (msg : String) (detail : String)
  | credentialLoadError (msg : String) (detail : String)
  deriving Repr, DecidableEq

/-- Observable events of a run: context allocation and release, cleanup
callback registration, credential file loads, per-connection handle creation,
session construction, and statistics increments. -/
inductive Ev where
  | cryptoInit
  | ctxAlloc (id : Nat)
  | callbackSet (ctx : Nat)
  | certFileLoad (path : String)
  | keyFileLoad (path : String)
  | statInc (stat : String)
  | ctxFree (id : Nat)
  | sslNew (ctx : Nat) (handle : Option Nat)
  | sessionNew (handle : Option Nat) (plain : Nat) (timeout : Nat)
  deriving Repr, DecidableEq

/-- The `TlsServer` driver struct: host identity, the shared `SSL_CTX *`
(modelled as an allocation id), and the configured i/o timeout (`TimeMSec`,
modelled as `Nat`).  The mem-context pointer is handled by `MemContext`
below. -/
structure TlsServer where
  host : String
  context : Nat
  timeout : Nat
  deriving Repr, DecidableEq

/-- Modelled from the spec: the TLS session object (common/io/tls/session,
missing from src/) is an external collaborator; the core only constructs it
from a per-connection protocol handle (`SSL *`, `none` models NULL), the
underlying plain session (an id), and a handshake timeout. -/
structure TlsSession where
  tlsHandle : Option Nat
  plainSession : Nat
  handshakeTimeout : Nat
  deriving Repr, DecidableEq

/-- Modelled from the spec: `tlsSessionNew` records exactly its three
arguments into the session object; handshake behaviour is out of scope. -/
def tlsSessionNew (tlsHandle : Option Nat) (plainSession : Nat) (timeout : Nat) : TlsSession :=
  { tlsHandle := tlsHandle, plainSession := plainSession, handshakeTimeout := timeout }

/-- Modelled from the spec: the named instrumentation counter bumped on server
construction (the literal of `TLS_STAT_SERVER` lives in a header missing from
src/; the spec calls it the "server constructed" counter). -/
def TLS_STAT_SERVER : String := "server constructed"

/-- Modelled from the spec: the named instrumentation counter bumped on each
accepted session (the spec calls it the "session accepted" counter). -/
def TLS_STAT_SESSION : String := "session accepted"

/-- `tlsServerToLog`: `strNewFmt("{host: %s, timeout: %" PRIu64 "}", ...)`. -/
def tlsServerToLog (this : TlsServer) : String :=
  "\x7bhost: " ++ this.host ++ ", timeout: " ++ toString this.timeout ++ "\x7d"

/-- `tlsServerFreeResource`: the registered cleanup callback; its body is
`SSL_CTX_free(this->context)`. -/
def tlsServerFreeResource (this : TlsServer) : List Ev :=
  [Ev.ctxFree this.context]

/-- `tlsServerName`: returns `this->host`. -/
def tlsServerName (this : TlsServer) : String :=
  this.host

/-- Modelled from the spec: a mem-context (common/memContext, missing from
src/) holding at most one registered cleanup callback; for this driver the
callback is `tlsServerFreeResource` applied to the stored driver. -/
structure MemContext where
  callback : Option TlsServer
  deriving Repr, DecidableEq

/-- `memContextCallbackSet`: registers the cleanup callback. -/
def memContextCallbackSet (mc : MemContext) (driver : TlsServer) : MemContext :=
  { mc with callback := some driver }

/-- Modelled from the spec: mem-context teardown runs the registered cleanup
callback and clears it first, so the callback runs exactly once no matter how
many teardown paths fire. -/
def memContextFree (mc : MemContext) : MemContext × List Ev :=
  match mc.callback with
  | some driver => ({ callback := none }, tlsServerFreeResource driver)
  | none => (mc, [])

/-- Result of one `tlsServerAccept` call: the driver state after the call, the
`result` local (`IoSession *result = NULL;` initialised, so `Option`), the
event trace, and the allocation counter after the call. -/
structure AcceptResult where
  driverAfter : TlsServer
  result : Option TlsSession
  trace : List Ev
  ctrAfter : Nat
  deriving Repr, DecidableEq

/-- `tlsServerAccept`: inside a temp mem context, `SSL *serverTls =
SSL_new(this->context)` (the source marks the missing NULL check with
`!!! CHECK ERROR?` and does not check), then
`result = tlsSessionNew(serverTls, session, 5000)` in the prior context, then
`statInc(TLS_STAT_SESSION_STR)`.  `ctr` supplies the fresh handle id; the
source never writes to `this`, so the driver is returned as received. -/
def tlsServerAccept (this : TlsServer) (session : Nat) (env : CryptoEnv) (ctr : Nat) :
    AcceptResult :=
  let serverTls : Option Nat := if env.sslNewOk then some ctr else none
  let result : Option TlsSession := some (tlsSessionNew serverTls session 5000)
  { driverAfter := this
    result := result
    trace := [Ev.sslNew this.context serverTls, Ev.sessionNew serverTls session 5000,
      Ev.statInc TLS_STAT_SESSION]
    ctrAfter := if env.sslNewOk then ctr + 1 else ctr }

/-- The `IoServer` wrapper returned by `ioServerNew(driver, &tlsServerInterface)`
(common/io/server, missing from src/): it pairs the driver with the interface,
through which `name`/`toLog` dispatch. -/
structure IoServer where
  driver : TlsServer
  deriving Repr, DecidableEq

/-- The `tlsServerInterface` capability table (accept is modelled separately
because it threads the crypto environment). -/
structure IoServerInterface where
  name : TlsServer → String
  toLog : TlsServer → String

/-- The interface constant wired in the source: `.name = tlsServerName`,
`.toLog = tlsServerToLog`. -/
def tlsServerInterface : IoServerInterface :=
  { name := tlsServerName, toLog := tlsServerToLog }

/-- `ioServerName`: dispatch through the interface table. -/
def ioServerName (s : IoServer) : String :=
  tlsServerInterface.name s.driver

/-- `ioServerToLog`: dispatch through the interface table. -/
def ioServerToLog (s : IoServer) : String :=
  tlsServerInterface.toLog s.driver

/-- Outcome of `tlsServerNew`: a published server (with its mem context), a
raised error, or an `ASSERT` violation (NULL argument). -/
inductive NewOutcome where
  | ok (server : IoServer) (mc : MemContext)
  | raised (e : TlsError)
  | assertViolated
  deriving Repr, DecidableEq

/-- `tlsServerNew(host, keyFile, certFile, timeout)`.  `none` models a NULL
`String *` argument, rejected by the `ASSERT`s.  Inside
`MEM_CONTEXT_NEW_BEGIN`: build the driver (host `strDup`ed, timeout copied),
`cryptoInit()`, select the method (`cryptoError` on NULL), allocate the
context (`cryptoError` on NULL; fresh id `ctr`), register
`tlsServerFreeResource` as the context's cleanup callback, load the
certificate then the private key (`cryptoError` on failure), bump the server
counter, and publish via `ioServerNew`.  An error raised inside the block
tears the new mem context down, which runs the registered callback — hence
the `ctxFree` events on the two credential-failure paths (modelled from the
spec: mem-context teardown runs cleanup callbacks on every unwind path). -/
def tlsServerNew (host keyFile certFile : Option String) (timeout : Nat)
    (env : CryptoEnv) (ctr : Nat) : NewOutcome × List Ev :=
  match host, keyFile, certFile with
  | some host, some keyFile, some certFile =>
    if env.methodAvailable = false then
      (NewOutcome.raised (TlsError.cryptoInitError "unable to load TLS method" env.cryptoErrText),
        [Ev.cryptoInit])
    else if env.ctxAllocOk = false then
      (NewOutcome.raised (TlsError.cryptoInitError "unable to create TLS context" env.cryptoErrText),
        [Ev.cryptoInit])
    else
      let ctx := ctr
      let driver : TlsServer := { host := host, context := ctx, timeout := timeout }
      let mc := memContextCallbackSet { callback := none } driver
      if env.certLoadOk = false then
        (NewOutcome.raised
            (TlsError.credentialLoadError "unable to load server certificate" env.cryptoErrText),
          [Ev.cryptoInit, Ev.ctxAlloc ctx, Ev.callbackSet ctx, Ev.certFileLoad certFile,
            Ev.ctxFree ctx])
      else if env.keyLoadOk = false then
        (NewOutcome.raised
            (TlsError.credentialLoadError "unable to load server private key" env.cryptoErrText),
          [Ev.cryptoInit, Ev.ctxAlloc ctx, Ev.callbackSet ctx, Ev.certFileLoad certFile,
            Ev.keyFileLoad keyFile, Ev.ctxFree ctx])
      else
        (NewOutcome.ok { driver := driver } mc,
          [Ev.cryptoInit, Ev.ctxAlloc ctx, Ev.callbackSet ctx, Ev.certFileLoad certFile,
            Ev.keyFileLoad keyFile, Ev.statInc TLS_STAT_SERVER])
  | _, _, _ => (NewOutcome.assertViolated, [])

/-- Selector for credential-file access events, used to state load ordering. -/
def isFileLoad : Ev → Bool
  | Ev.certFileLoad _ => true
  | Ev.keyFileLoad _ => true
  | _ => false

/-- Selector for context-lifecycle events (callback registration, credential
loads, context release), used to state their relative order. -/
def lifecycle : Ev → Bool
  | Ev.callbackSet _ => true
  | Ev.certFileLoad _ => true
  | Ev.keyFileLoad _ => true
  | Ev.ctxFree _ => true
  | _ => false

/-- Substring containment at the character-list level. -/
def strContains (s sub : String) : Prop :=
  ∃ p q, s.data = p ++ (sub.data ++ q)

/-- An environment in which every crypto call succeeds. -/
def envAllOk : CryptoEnv :=
  { methodAvailable := true, ctxAllocOk := true, certLoadOk := true, keyLoadOk := true,
    sslNewOk := true, cryptoErrText := "err" }

/-- An environment in which `SSL_new` fails (returns NULL). -/
def envSslNewFail : CryptoEnv :=
  { envAllOk with sslNewOk := false }

/-- An environment in which the certificate load fails. -/
def envCertFail : CryptoEnv :=
  { envAllOk with certLoadOk := false }

/-- An environment in which the private-key load fails. -/
def envKeyFail : CryptoEnv :=
  { envAllOk with keyLoadOk := false }

theorem string_data_append (s t : String) : (s ++ t).data = s.data ++ t.data :=
  rfl

/-- C1: every accept call constructs the TLS session from the per-connection
protocol handle produced by `SSL_new` on the shared context, the underlying
plain session, and the fixed handshake timeout constant 5000 — and the result
is unchanged whatever the driver's configured `timeout` field holds. -/
theorem tlsServerAccept_fixed_handshake_timeout (this : TlsServer) (session : Nat)
    (env : CryptoEnv) (ctr t : Nat) :
    (tlsServerAccept this session env ctr).result =
      some (tlsSessionNew (if env.sslNewOk then some ctr else none) session 5000) ∧
    (tlsServerAccept { this with timeout := t } session env ctr).result =
      (tlsServerAccept this session env ctr).result := by
  constructor <;> rfl

/-- C2: at a concrete accept call in which `SSL_new` fails, the source raises
no error and hands the NULL protocol handle straight to `tlsSessionNew`
(result session carries `tlsHandle = none`), then still bumps the session
counter — the null check marked `!!! CHECK ERROR?` is absent. -/
theorem tlsServerAccept_unchecked_null_handle :
    (tlsServerAccept { host := "db1", context := 0, timeout := 30000 } 7 envSslNewFail 1).result =
      some { tlsHandle := none, plainSession := 7, handshakeTimeout := 5000 } ∧
    (tlsServerAccept { host := "db1", context := 0, timeout := 30000 } 7 envSslNewFail 1).trace =
      [Ev.sslNew 0 none, Ev.sessionNew none 7 5000, Ev.statInc TLS_STAT_SESSION] :=
  ⟨rfl, rfl⟩

/-- C3: construction accesses the certificate file before the private-key
file (the credential-access trace is always a prefix of cert-then-key); a
certificate-load failure raises `CredentialLoadError` with the call-site
message and the underlying crypto error text, with the key file never
touched; a key-load failure likewise raises `CredentialLoadError`. -/
theorem tlsServerNew_cert_then_key (host key cert : String) (t ctr : Nat) (env : CryptoEnv) :
    ((tlsServerNew (some host) (some key) (some cert) t env ctr).snd.filter isFileLoad = [] ∨
     (tlsServerNew (some host) (some key) (some cert) t env ctr).snd.filter isFileLoad =
       [Ev.certFileLoad cert] ∨
     (tlsServerNew (some host) (some key) (some cert) t env ctr).snd.filter isFileLoad =
       [Ev.certFileLoad cert, Ev.keyFileLoad key]) ∧
    (env.methodAvailable = true → env.ctxAllocOk = true → env.certLoadOk = false →
      (tlsServerNew (some host) (some key) (some cert) t env ctr).fst =
        NewOutcome.raised
          (TlsError.credentialLoadError "unable to load server certificate" env.cryptoErrText) ∧
      (tlsServerNew (some host) (some key) (some cert) t env ctr).snd.filter isFileLoad =
        [Ev.certFileLoad cert]) ∧
    (env.methodAvailable = true → env.ctxAllocOk = true → env.certLoadOk = true →
      env.keyLoadOk = false →
      (tlsServerNew (some host) (some key) (some cert) t env ctr).fst =
        NewOutcome.raised
          (TlsError.credentialLoadError "unable to load server private key" env.cryptoErrText)) := by
  rcases env with ⟨m, c, ce, k, s, txt⟩
  cases m <;> cases c <;> cases ce <;> cases k <;>
    simp [tlsServerNew, isFileLoad, List.filter]

/-- Witness for C3 at a concrete failing certificate load. -/
theorem tlsServerNew_cert_then_key_witness :
    (tlsServerNew (some "db1") (some "key.pem") (some "cert.pem") 30000 envCertFail 0).fst =
      NewOutcome.raised (TlsError.credentialLoadError "unable to load server certificate" "err") ∧
    (tlsServerNew (some "db1") (some "key.pem") (some "cert.pem") 30000
        envCertFail 0).snd.filter isFileLoad = [Ev.certFileLoad "cert.pem"] :=
  (tlsServerNew_cert_then_key "db1" "key.pem" "cert.pem" 30000 0 envCertFail).2.1 rfl rfl rfl

/-- C4: if any construction step fails — method selection or context
allocation raising `CryptoInitError`, or a credential load raising
`CredentialLoadError` — then `tlsServerNew` publishes no server at all. -/
theorem tlsServerNew_no_partial_server (host key cert : String) (t ctr : Nat) (env : CryptoEnv)
    (hfail : env.methodAvailable = false ∨ env.ctxAllocOk = false ∨ env.certLoadOk = false ∨
      env.keyLoadOk = false) :
    (∀ server mc, (tlsServerNew (some host) (some key) (some cert) t env ctr).fst ≠
      NewOutcome.ok server mc) ∧
    (env.methodAvailable = false →
      (tlsServerNew (some host) (some key) (some cert) t env ctr).fst =
        NewOutcome.raised
          (TlsError.cryptoInitError "unable to load TLS method" env.cryptoErrText)) ∧
    (env.methodAvailable = true → env.ctxAllocOk = false →
      (tlsServerNew (some host) (some key) (some cert) t env ctr).fst =
        NewOutcome.raised
          (TlsError.cryptoInitError "unable to create TLS context" env.cryptoErrText)) ∧
    (env.methodAvailable = true → env.ctxAllocOk = true →
      ∃ msg, (tlsServerNew (some host) (some key) (some cert) t env ctr).fst =
        NewOutcome.raised (TlsError.credentialLoadError msg env.cryptoErrText)) := by
  rcases env with ⟨m, c, ce, k, s, txt⟩
  cases m <;> cases c <;> cases ce <;> cases k <;>
    simp_all [tlsServerNew]

/-- Witness for C4 at a concrete failing method selection. -/
theorem tlsServerNew_no_partial_server_witness :
    (tlsServerNew (some "db1") (some "key.pem") (some "cert.pem") 30000
        { envAllOk with methodAvailable := false } 0).fst =
      NewOutcome.raised (TlsError.cryptoInitError "unable to load TLS method" "err") :=
  (tlsServerNew_no_partial_server "db1" "key.pem" "cert.pem" 30000 0
    { envAllOk with methodAvailable := false } (Or.inl rfl)).2.1 rfl

/-- C5: a successfully constructed server's `name()` is the supplied host and
its `toLogString()` contains both the host and the timeout value; both are
pure functions of the immutable driver fields. -/
theorem tlsServerNew_name_and_log (host key cert : String) (t ctr : Nat) (env : CryptoEnv)
    (server : IoServer) (mc : MemContext)
    (h : (tlsServerNew (some host) (some key) (some cert) t env ctr).fst =
      NewOutcome.ok server mc) :
    ioServerName server = host ∧
    strContains (ioServerToLog server) host ∧
    strContains (ioServerToLog server) (toString t) := by
  rcases env with ⟨m, c, ce, k, s, txt⟩
  cases m <;> cases c <;> cases ce <;> cases k <;> simp [tlsServerNew] at h
  obtain ⟨hs, hm⟩ := h
  subst hs
  refine ⟨rfl, ?_, ?_⟩
  · exact ⟨("\x7bhost: ").data, (", timeout: " ++ toString t ++ "\x7d").data, by
      simp [ioServerToLog, tlsServerInterface, tlsServerToLog, string_data_append,
        List.append_assoc]⟩
  · exact ⟨("\x7bhost: " ++ host ++ ", timeout: ").data, ("\x7d").data, by
      simp [ioServerToLog, tlsServerInterface, tlsServerToLog, string_data_append,
        List.append_assoc]⟩

/-- Witness for C5 at a concrete successful construction. -/
theorem tlsServerNew_name_and_log_witness :
    ioServerName { driver := { host := "db1", context := 0, timeout := 30000 } } = "db1" ∧
    strContains (ioServerToLog { driver := { host := "db1", context := 0, timeout := 30000 } })
      "db1" ∧
    strContains (ioServerToLog { driver := { host := "db1", context := 0, timeout := 30000 } })
      (toString 30000) :=
  tlsServerNew_name_and_log "db1" "key.pem" "cert.pem" 30000 0 envAllOk
    { driver := { host := "db1", context := 0, timeout := 30000 } }
    { callback := some { host := "db1", context := 0, timeout := 30000 } } rfl

/-- C6: accept never mutates the driver — after one or two accept calls the
driver (in particular its shared `context` field) is identity-equal to what
it was at construction — and two accepts with distinct plain sessions yield
two distinct session objects, each wrapping its own plain session. -/
theorem tlsServerAccept_context_immutable (this : TlsServer) (s1 s2 : Nat)
    (env1 env2 : CryptoEnv) (ctr : Nat) (hne : s1 ≠ s2) :
    (tlsServerAccept this s1 env1 ctr).driverAfter = this ∧
    (tlsServerAccept (tlsServerAccept this s1 env1 ctr).driverAfter s2 env2
      (tlsServerAccept this s1 env1 ctr).ctrAfter).driverAfter = this ∧
    (tlsServerAccept this s1 env1 ctr).driverAfter.context = this.context ∧
    Option.map TlsSession.plainSession (tlsServerAccept this s1 env1 ctr).result = some s1 ∧
    Option.map TlsSession.plainSession
      (tlsServerAccept (tlsServerAccept this s1 env1 ctr).driverAfter s2 env2
        (tlsServerAccept this s1 env1 ctr).ctrAfter).result = some s2 ∧
    (tlsServerAccept this s1 env1 ctr).result ≠
      (tlsServerAccept (tlsServerAccept this s1 env1 ctr).driverAfter s2 env2
        (tlsServerAccept this s1 env1 ctr).ctrAfter).result := by
  refine ⟨rfl, rfl, rfl, rfl, rfl, ?_⟩
  simp only [tlsServerAccept, tlsSessionNew, ne_eq, Option.some.injEq, TlsSession.mk.injEq]
  intro h
  exact hne h.2.1

/-- Witness for C6 at two concrete distinct plain sessions. -/
theorem tlsServerAccept_context_immutable_witness :
    (0 : Nat) ≠ 1 ∧
    ((tlsServerAccept { host := "db1", context := 3, timeout := 30000 } 0 envAllOk 5).driverAfter =
        { host := "db1", context := 3, timeout := 30000 } ∧
      (tlsServerAccept
        (tlsServerAccept { host := "db1", context := 3, timeout := 30000 } 0
          envAllOk 5).driverAfter 1 envAllOk
        (tlsServerAccept { host := "db1", context := 3, timeout := 30000 } 0
          envAllOk 5).ctrAfter).driverAfter =
        { host := "db1", context := 3, timeout := 30000 } ∧
      (tlsServerAccept { host := "db1", context := 3, timeout := 30000 } 0
          envAllOk 5).driverAfter.context =
        ({ host := "db1", context := 3, timeout := 30000 } : TlsServer).context ∧
      Option.map TlsSession.plainSession
        (tlsServerAccept { host := "db1", context := 3, timeout := 30000 } 0
          envAllOk 5).result = some 0 ∧
      Option.map TlsSession.plainSession
        (tlsServerAccept
          (tlsServerAccept { host := "db1", context := 3, timeout := 30000 } 0
            envAllOk 5).driverAfter 1 envAllOk
          (tlsServerAccept { host := "db1", context := 3, timeout := 30000 } 0
            envAllOk 5).ctrAfter).result = some 1 ∧
      (tlsServerAccept { host := "db1", context := 3, timeout := 30000 } 0 envAllOk 5).result ≠
        (tlsServerAccept
          (tlsServerAccept { host := "db1", context := 3, timeout := 30000 } 0
            envAllOk 5).driverAfter 1 envAllOk
          (tlsServerAccept { host := "db1", context := 3, timeout := 30000 } 0
            envAllOk 5).ctrAfter).result) :=
  ⟨by decide,
    tlsServerAccept_context_immutable { host := "db1", context := 3, timeout := 30000 } 0 1
      envAllOk envAllOk 5 (by decide)⟩

/-- C7: destroying a constructed server runs the registered cleanup exactly
once, releasing precisely its TLS context; a second teardown of the same
mem context frees nothing (no double-free), and the successful construction
itself never freed the context (so the single release is neither early nor a
leak). -/
theorem tlsServer_context_freed_exactly_once (host key cert : String) (t ctr : Nat)
    (env : CryptoEnv) (server : IoServer) (mc : MemContext)
    (h : (tlsServerNew (some host) (some key) (some cert) t env ctr).fst =
      NewOutcome.ok server mc) :
    (memContextFree mc).snd = [Ev.ctxFree server.driver.context] ∧
    (memContextFree (memContextFree mc).fst).snd = [] ∧
    Ev.ctxFree server.driver.context ∉
      (tlsServerNew (some host) (some key) (some cert) t env ctr).snd := by
  rcases env with ⟨m, c, ce, k, s, txt⟩
  cases m <;> cases c <;> cases ce <;> cases k <;> simp [tlsServerNew] at h
  obtain ⟨hs, hm⟩ := h
  subst hs
  subst hm
  refine ⟨rfl, rfl, ?_⟩
  simp [tlsServerNew, memContextCallbackSet, memContextFree, tlsServerFreeResource]

/-- Witness for C7 at a concrete successful construction. -/
theorem tlsServer_context_freed_exactly_once_witness :
    (memContextFree { callback := some { host := "db1", context := 0, timeout := 30000 } }).snd =
      [Ev.ctxFree 0] ∧
    (memContextFree (memContextFree
      { callback := some { host := "db1", context := 0, timeout := 30000 } }).fst).snd = [] ∧
    Ev.ctxFree 0 ∉
      (tlsServerNew (some "db1") (some "key.pem") (some "cert.pem") 30000 envAllOk 0).snd :=
  tlsServer_context_freed_exactly_once "db1" "key.pem" "cert.pem" 30000 0 envAllOk
    { driver := { host := "db1", context := 0, timeout := 30000 } }
    { callback := some { host := "db1", context := 0, timeout := 30000 } } rfl

/-- C8: every accept call returns a non-null session (the `result` local is
set) and bumps the session-accepted counter exactly once while leaving all
driver fields unchanged; a successful construction bumps the
server-constructed counter exactly once. -/
theorem tlsServerAccept_counters_and_frame (this : TlsServer) (session : Nat) (env : CryptoEnv)
    (ctr : Nat) (host key cert : String) (t ctr2 : Nat) (env2 : CryptoEnv)
    (server : IoServer) (mc : MemContext)
    (h : (tlsServerNew (some host) (some key) (some cert) t env2 ctr2).fst =
      NewOutcome.ok server mc) :
    (tlsServerAccept this session env ctr).result.isSome = true ∧
    (tlsServerAccept this session env ctr).trace.count (Ev.statInc TLS_STAT_SESSION) = 1 ∧
    (tlsServerAccept this session env ctr).driverAfter = this ∧
    (tlsServerNew (some host) (some key) (some cert) t env2 ctr2).snd.count
      (Ev.statInc TLS_STAT_SERVER) = 1 := by
  refine ⟨rfl, ?_, rfl, ?_⟩
  · simp [tlsServerAccept, List.count_cons, List.count_nil]
  · rcases env2 with ⟨m, c, ce, k, s, txt⟩
    cases m <;> cases c <;> cases ce <;> cases k <;> simp [tlsServerNew] at h ⊢

/-- Witness for C8 at a concrete accept and a concrete construction. -/
theorem tlsServerAccept_counters_and_frame_witness :
    (tlsServerAccept { host := "db1", context := 0, timeout := 30000 } 7 envAllOk 1).result.isSome =
      true ∧
    (tlsServerAccept { host := "db1", context := 0, timeout := 30000 } 7 envAllOk 1).trace.count
      (Ev.statInc TLS_STAT_SESSION) = 1 ∧
    (tlsServerAccept { host := "db1", context := 0, timeout := 30000 } 7 envAllOk 1).driverAfter =
      { host := "db1", context := 0, timeout := 30000 } ∧
    (tlsServerNew (some "db1") (some "key.pem") (some "cert.pem") 30000 envAllOk 0).snd.count
      (Ev.statInc TLS_STAT_SERVER) = 1 :=
  tlsServerAccept_counters_and_frame { host := "db1", context := 0, timeout := 30000 } 7 envAllOk
    1 "db1" "key.pem" "cert.pem" 30000 0 envAllOk
    { driver := { host := "db1", context := 0, timeout := 30000 } }
    { callback := some { host := "db1", context := 0, timeout := 30000 } } rfl

/-- C9: construction only asserts that the three pointer arguments are
non-NULL; an empty host string passes the asserts and, when the crypto calls
succeed, yields a server whose `name()` is the empty string, while a NULL
host, key-file or cert-file argument trips an assert. -/
theorem tlsServerNew_null_asserts_only (key cert : String) (t ctr : Nat) (env : CryptoEnv)
    (hm : env.methodAvailable = true) (hc : env.ctxAllocOk = true)
    (hce : env.certLoadOk = true) (hk : env.keyLoadOk = true) :
    (tlsServerNew (some "") (some key) (some cert) t env ctr).fst =
      NewOutcome.ok { driver := { host := "", context := ctr, timeout := t } }
        { callback := some { host := "", context := ctr, timeout := t } } ∧
    ioServerName { driver := { host := "", context := ctr, timeout := t } } = "" ∧
    (tlsServerNew none (some key) (some cert) t env ctr).fst = NewOutcome.assertViolated ∧
    (tlsServerNew (some "") none (some cert) t env ctr).fst = NewOutcome.assertViolated ∧
    (tlsServerNew (some "") (some key) none t env ctr).fst = NewOutcome.assertViolated := by
  refine ⟨?_, rfl, rfl, rfl, rfl⟩
  simp [tlsServerNew, hm, hc, hce, hk, memContextCallbackSet]

/-- Witness for C9 at a concrete all-succeeding crypto environment. -/
theorem tlsServerNew_null_asserts_only_witness :
    (tlsServerNew (some "") (some "key.pem") (some "cert.pem") 30000 envAllOk 0).fst =
      NewOutcome.ok { driver := { host := "", context := 0, timeout := 30000 } }
        { callback := some { host := "", context := 0, timeout := 30000 } } ∧
    ioServerName { driver := { host := "", context := 0, timeout := 30000 } } = "" ∧
    (tlsServerNew none (some "key.pem") (some "cert.pem") 30000 envAllOk 0).fst =
      NewOutcome.assertViolated ∧
    (tlsServerNew (some "") none (some "cert.pem") 30000 envAllOk 0).fst =
      NewOutcome.assertViolated ∧
    (tlsServerNew (some "") (some "key.pem") none 30000 envAllOk 0).fst =
      NewOutcome.assertViolated :=
  tlsServerNew_null_asserts_only "key.pem" "cert.pem" 30000 0 envAllOk rfl rfl rfl rfl

/-- C10: the cleanup callback is registered before either credential load (in
the lifecycle trace, `callbackSet` precedes every load event), so on a
credential-load failure the already-allocated context is released by the
mem-context teardown: the error trace allocates the context exactly once and
frees it exactly once — no leak. -/
theorem tlsServerNew_error_path_frees_context (host key cert : String) (t ctr : Nat)
    (env : CryptoEnv) (hm : env.methodAvailable = true) (hc : env.ctxAllocOk = true)
    (hfail : env.certLoadOk = false ∨ env.keyLoadOk = false) :
    (env.certLoadOk = false →
      (tlsServerNew (some host) (some key) (some cert) t env ctr).snd.filter lifecycle =
        [Ev.callbackSet ctr, Ev.certFileLoad cert, Ev.ctxFree ctr]) ∧
    (env.certLoadOk = true →
      (tlsServerNew (some host) (some key) (some cert) t env ctr).snd.filter lifecycle =
        [Ev.callbackSet ctr, Ev.certFileLoad cert, Ev.keyFileLoad key, Ev.ctxFree ctr]) ∧
    (tlsServerNew (some host) (some key) (some cert) t env ctr).snd.count (Ev.ctxAlloc ctr) = 1 ∧
    (tlsServerNew (some host) (some key) (some cert) t env ctr).snd.count (Ev.ctxFree ctr) = 1 := by
  rcases env with ⟨m, c, ce, k, s, txt⟩
  cases m <;> cases c <;> cases ce <;> cases k <;> simp_all [tlsServerNew, lifecycle]

/-- Witness for C10 at a concrete failing certificate load. -/
theorem tlsServerNew_error_path_frees_context_witness :
    (tlsServerNew (some "db1") (some "key.pem") (some "cert.pem") 30000
        envCertFail 0).snd.filter lifecycle =
      [Ev.callbackSet 0, Ev.certFileLoad "cert.pem", Ev.ctxFree 0] ∧
    (tlsServerNew (some "db1") (some "key.pem") (some "cert.pem") 30000 envCertFail 0).snd.count
      (Ev.ctxAlloc 0) = 1 ∧
    (tlsServerNew (some "db1") (some "key.pem") (some "cert.pem") 30000 envCertFail 0).snd.count
      (Ev.ctxFree 0) = 1 :=
  have h := tlsServerNew_error_path_frees_context "db1" "key.pem" "cert.pem" 30000 0 envCertFail
    rfl rfl (Or.inl rfl)
  ⟨h.1 rfl, h.2.2.1, h.2.2.2⟩

end PgBackRest
